import Mathlib

/-!
Verification of the gr-dcu-libcommon shared-memory IPC library.

The development shallowly embeds `SharedState<T>` from
`include/common/ipc/shared_state.hpp` together with the record layouts
(`DeviceConfig`, `DeviceConfigTable`, the liveness constants and
`Utils::HasGpsOption`) from the IPC data header.

The POSIX shared-memory namespace is modelled explicitly: `OSState` maps
names to region ids and region ids to (optional) typed contents; a region
whose bytes were never interpreted as a record holds `none`.  The three
OS calls that can fail (`shm_open`, `ftruncate`, `mmap`) are driven by a
fault-injection record `Faults` so that every failure path of the C++
code is reachable in the model.
-/

/-- Model of the OS shared-memory namespace.  `names` is the shm
namespace (name to region id, first match wins, as there is at most one
live binding per name); `regions` maps region ids to their typed
contents (`none` = allocated zero-filled bytes not yet constructed as a
`T`).  Regions persist after `shm_unlink` because already-mapped
processes keep valid mappings. -/
structure OSState (T : Type) where
  nextId : Nat
  names : List (String × Nat)
  regions : List (Nat × Option T)
deriving DecidableEq

/-- First-match lookup of a name in the shm namespace. -/
def lookupName : List (String × Nat) → String → Option Nat
  | [], _ => none
  | p :: rest, name => if p.1 = name then some p.2 else lookupName rest name

/-- Effect of `shm_unlink`: remove every binding of `name` from the
namespace (region contents persist for already-mapped users). -/
def removeName : List (String × Nat) → String → List (String × Nat)
  | [], _ => []
  | p :: rest, name =>
    if p.1 = name then removeName rest name else p :: removeName rest name

/-- First-match lookup of a region's contents by id. -/
def lookupRegion {T : Type} : List (Nat × Option T) → Nat → Option (Option T)
  | [], _ => none
  | p :: rest, id => if p.1 = id then some p.2 else lookupRegion rest id

/-- First-match update of a region's contents (a store through a mapping). -/
def setRegion {T : Type} : List (Nat × Option T) → Nat → Option T → List (Nat × Option T)
  | [], _, _ => []
  | p :: rest, id, v =>
    if p.1 = id then (p.1, v) :: rest else p :: setRegion rest id v

/-- Fault injection for the three fallible OS calls used by
`SharedState`: `shm_open` (allocation), `ftruncate` (sizing), `mmap`
(mapping). -/
structure Faults where
  shmOpenFail : Bool
  ftruncateFail : Bool
  mmapFail : Bool
deriving DecidableEq

/-- The fault-free OS behaviour. -/
def noFaults : Faults := ⟨false, false, false⟩

/-- `shm_unlink(name)` on the namespace. -/
def OSState.unlink {T : Type} (os : OSState T) (name : String) : OSState T :=
  { os with names := removeName os.names name }

/-- `shm_open(name, O_CREAT | O_RDWR)`: on success returns the region id
the new descriptor refers to; with `O_CREAT` (without `O_EXCL`) an
existing binding is reused, otherwise a fresh zero-filled region is
allocated and bound to `name`. -/
def OSState.shmOpenCreate {T : Type} (os : OSState T) (name : String) (fail : Bool) :
    OSState T × Option Nat :=
  if fail then (os, none)
  else
    match lookupName os.names name with
    | some id => (os, some id)
    | none =>
      ({ nextId := os.nextId + 1,
         names := (name, os.nextId) :: os.names,
         regions := (os.nextId, none) :: os.regions }, some os.nextId)

/-- `shm_open(name, O_RDWR)`: opens an existing binding, never creates. -/
def OSState.shmOpenExisting {T : Type} (os : OSState T) (name : String) (fail : Bool) :
    Option Nat :=
  if fail then none else lookupName os.names name

/-- The handle state of `SharedState<T>`: file descriptor (`none` models
`-1`), mapped pointer (`none` models `nullptr`, otherwise the mapped
region's id), owner flag and remembered name — exactly the four data
members of the C++ class. -/
structure SharedState where
  shm_fd_ : Option Nat
  data_ptr_ : Option Nat
  is_owner_ : Bool
  shm_name_ : String
deriving DecidableEq

/-- The default constructor: `shm_fd_(-1), data_ptr_(nullptr),
is_owner_(false), shm_name_("")`. -/
def SharedState.mk0 : SharedState := ⟨none, none, false, ""⟩

/-- `validateName`: the name must be non-empty and start with '/'. -/
def validateName (name : String) : Bool :=
  match name.data with
  | [] => false
  | c :: _ => c == '/'

/-- `cleanup()`: `munmap` if mapped, `::close` the descriptor if open,
and `shm_unlink` the name only when `is_owner_` and the name is
non-empty. -/
def SharedState.cleanup {T : Type} (os : OSState T) (h : SharedState) :
    OSState T × SharedState :=
  (if h.is_owner_ && !(h.shm_name_ == "") then os.unlink h.shm_name_ else os,
   { h with data_ptr_ := none, shm_fd_ := none })

/-- `create(shm_name)`: validate the name, remember it, `shm_unlink` any
stale resource, `shm_open` with `O_CREAT`, `ftruncate` to `sizeof(T)`
(closing the fd on failure), `mmap` (running `cleanup` on failure), then
placement-new a default `T` (`init`) into the mapped region and set the
owner flag. -/
def SharedState.create {T : Type} (f : Faults) (init : T) (os : OSState T)
    (h : SharedState) (name : String) : OSState T × SharedState × Bool :=
  if validateName name = false then (os, h, false)
  else
    let h1 : SharedState := { h with shm_name_ := name }
    let osA := os.unlink name
    match osA.shmOpenCreate name f.shmOpenFail with
    | (osB, none) => (osB, h1, false)
    | (osB, some id) =>
      let h2 : SharedState := { h1 with shm_fd_ := some id }
      if f.ftruncateFail then (osB, { h2 with shm_fd_ := none }, false)
      else if f.mmapFail then
        let p := SharedState.cleanup osB h2
        (p.1, p.2, false)
      else
        let h3 : SharedState := { h2 with data_ptr_ := some id }
        let osC := { osB with regions := setRegion osB.regions id (some init) }
        (osC, { h3 with is_owner_ := true }, true)

/-- `open(shm_name)` (named `openShm` because `open` is a Lean keyword):
validate the name, remember it, `shm_open` without `O_CREAT`, `mmap`
(running `cleanup` on failure) and clear the owner flag; never
constructs the record. -/
def SharedState.openShm {T : Type} (f : Faults) (os : OSState T)
    (h : SharedState) (name : String) : OSState T × SharedState × Bool :=
  if validateName name = false then (os, h, false)
  else
    let h1 : SharedState := { h with shm_name_ := name }
    match os.shmOpenExisting name f.shmOpenFail with
    | none => (os, h1, false)
    | some id =>
      let h2 : SharedState := { h1 with shm_fd_ := some id }
      if f.mmapFail then
        let p := SharedState.cleanup os h2
        (p.1, p.2, false)
      else
        (os, { h2 with data_ptr_ := some id, is_owner_ := false }, true)

/-- `close()`: delegates to `cleanup()`. -/
def SharedState.close {T : Type} (os : OSState T) (h : SharedState) :
    OSState T × SharedState :=
  SharedState.cleanup os h

/-- Reading the record through the handle's mapped pointer
(`operator->` / `data()` followed by a load of the whole record). -/
def SharedState.readRecord {T : Type} (os : OSState T) (h : SharedState) :
    Option (Option T) :=
  match h.data_ptr_ with
  | none => none
  | some id => lookupRegion os.regions id

/-- `isInitialized()`: true iff `data_ptr_` is non-null. -/
def SharedState.isInitialized (h : SharedState) : Bool :=
  h.data_ptr_.isSome

/-- An operation invoked on one handle, used to describe reachable
handle states. -/
inductive ShmOp (T : Type) where
  | createOp (f : Faults) (init : T) (name : String)
  | openOp (f : Faults) (name : String)
  | closeOp
deriving DecidableEq

/-- Run one operation, returning the new OS state, new handle state and
the boolean result (close always counts as succeeding). -/
def runOp {T : Type} (os : OSState T) (h : SharedState) : ShmOp T → OSState T × SharedState × Bool
  | .createOp f init name => SharedState.create f init os h name
  | .openOp f name => SharedState.openShm f os h name
  | .closeOp => ((SharedState.close os h).1, (SharedState.close os h).2, true)

/-- Run a list of operations on one handle, tracking which attach
operation last succeeded (`some true` = `create`, `some false` = `open`,
`none` = none yet). -/
def runTrace {T : Type} (os : OSState T) (h : SharedState) (last : Option Bool) :
    List (ShmOp T) → OSState T × SharedState × Option Bool
  | [] => (os, h, last)
  | op :: rest =>
    let r := runOp os h op
    let last1 :=
      if r.2.2 then
        match op with
        | .createOp _ _ _ => some true
        | .openOp _ _ => some false
        | .closeOp => last
      else last
    runTrace r.1 r.2.1 last1 rest

-- Record layouts and helpers from the IPC data header.

/-- Heartbeat threshold for the sound agent, in milliseconds
(`AliveTimeThresholdSound = 5000`). -/
def AliveTimeThresholdSound : Int := 5000

/-- Extra margin absorbing network/scheduling delay
(`AliveTimeMargin = 500`). -/
def AliveTimeMargin : Int := 500

/-- Modelled from the spec: the reader-side liveness predicate
`aliveness = (now - heartbeat) < (threshold + margin)`; the reader code
is not part of this repository's sources (only the two constants are),
so the predicate follows the spec's formula, instantiated with the
sound-agent constants. -/
def aliveness (now heartbeat : Int) : Bool :=
  decide (now - heartbeat < AliveTimeThresholdSound + AliveTimeMargin)

/-- The `GpsOption` flag enum: `NONE = 0`, `USE_RTK = 0x01`,
`USE_DR = 0x02`, `IMU_SAVE = 0x04`, `IMU_RESTORE = 0x08`. -/
inductive GpsOption where
  | NONE
  | USE_RTK
  | USE_DR
  | IMU_SAVE
  | IMU_RESTORE
deriving DecidableEq

/-- Numeric value of a `GpsOption` (its `uint8_t` representation). -/
def GpsOption.val : GpsOption → Nat
  | .NONE => 0
  | .USE_RTK => 1
  | .USE_DR => 2
  | .IMU_SAVE => 4
  | .IMU_RESTORE => 8

/-- `Utils::HasGpsOption`: bitwise AND of the current option byte with
the target flag's value, compared against zero. -/
def Utils.HasGpsOption (currentOptions : Nat) (target : GpsOption) : Bool :=
  (currentOptions.land target.val) != 0

/-- Size of the `port` buffer in `DeviceConfig` (`char port[32]`). -/
def PORT_SIZE : Nat := 32

/-- What `strncpy(dest, src, n)` writes into the first `n` bytes of
`dest` when `src` holds the given non-NUL bytes: at most `n` bytes of
`src`, NUL-padded up to `n` when `src` is shorter. -/
def strncpyBytes (src : List Nat) (n : Nat) : List Nat :=
  src.take n ++ List.replicate (n - src.length) 0

/-- `DeviceConfig::setPort` acting on the raw 32-byte buffer:
`strncpy(port, p, sizeof(port) - 1)` overwrites bytes 0..30, then
`port[sizeof(port) - 1] = 0` overwrites byte 31, so the result does not
depend on the buffer's previous contents. -/
def setPortBytes (p : List Nat) : List Nat :=
  strncpyBytes p (PORT_SIZE - 1) ++ [0]

/-- The C string stored in a byte buffer: its bytes up to the first NUL. -/
def cString (buf : List Nat) : List Nat :=
  buf.takeWhile (fun b => b != 0)

/-- `DeviceConfig`: port buffer (raw bytes), baudrate, update rate,
option byte, type byte, enabled flag and 4 reserved bytes. -/
structure DeviceConfig where
  port : List Nat
  baudrate : Nat
  update_rate_hz : Nat
  option : Nat
  type : Nat
  enabled : Bool
  reserved : List Nat
deriving DecidableEq

/-- The `DeviceConfig` default constructor: `baudrate = 115200`,
`update_rate_hz = 10`, `option = 0`, `type = 1`, `enabled = false`,
`port[0] = 0` (bytes 1..31 of the buffer are left indeterminate, here
`junk`), `reserved` zeroed by `memset`. -/
def DeviceConfig.mk0 (junk : List Nat) : DeviceConfig :=
  ⟨0 :: junk, 115200, 10, 0, 1, false, [0, 0, 0, 0]⟩

/-- The per-agent acknowledgement flags of `DeviceConfigTable`. -/
structure AgentStatus where
  gps_ready : Bool
  imu_ready : Bool
deriving DecidableEq

/-- `DeviceConfigTable`: one `DeviceConfig` each for GPS and IMU, the
server's `ready` flag and the agent acknowledgement flags. -/
structure DeviceConfigTable where
  gps : DeviceConfig
  imu : DeviceConfig
  ready : Bool
  status : AgentStatus
deriving DecidableEq

/-- The `DeviceConfigTable` default constructor: default-constructs
`gps` and `imu` (their indeterminate port bytes are `junkG`/`junkI`) and
stores `false` into `ready`, `status.gps_ready` and `status.imu_ready`. -/
def DeviceConfigTable.mk0 (junkG junkI : List Nat) : DeviceConfigTable :=
  ⟨DeviceConfig.mk0 junkG, DeviceConfig.mk0 junkI, false, ⟨false, false⟩⟩

-- Basic lemmas about the namespace model.

theorem lookupName_removeName (l : List (String × Nat)) (name : String) :
    lookupName (removeName l name) name = none := by
  induction l with
  | nil => rfl
  | cons p rest ih =>
    simp only [removeName]
    by_cases hp : p.1 = name
    · simpa [hp] using ih
    · simpa [lookupName, hp] using ih

theorem removeName_removeName (l : List (String × Nat)) (name : String) :
    removeName (removeName l name) name = removeName l name := by
  induction l with
  | nil => rfl
  | cons p rest ih =>
    simp only [removeName]
    by_cases hp : p.1 = name
    · simpa [hp] using ih
    · simp [removeName, hp, ih]

theorem validateName_of_head (name : String) (hv : name.data.head? = some '/') :
    validateName name = true := by
  unfold validateName
  cases hd : name.data with
  | nil => rw [hd] at hv; simp at hv
  | cons c rest =>
    rw [hd] at hv
    simp only [List.head?] at hv
    injection hv with hc
    simp [hc]

theorem validateName_false_of_head (name : String) (hv : name.data.head? ≠ some '/') :
    validateName name = false := by
  unfold validateName
  cases hd : name.data with
  | nil => rfl
  | cons c rest =>
    rw [hd] at hv
    simp only [List.head?, ne_eq, Option.some.injEq] at hv
    simp [hv]

-- Owner-flag behaviour of each operation, by exhaustive case analysis
-- over the fault record and the name check.

theorem create_owner_of_success {T : Type} (f : Faults) (init : T) (os : OSState T)
    (h : SharedState) (name : String)
    (hs : (SharedState.create f init os h name).2.2 = true) :
    (SharedState.create f init os h name).2.1.is_owner_ = true := by
  rcases f with ⟨so, ft, mm⟩
  by_cases hv : validateName name = false <;>
    cases so <;> cases ft <;> cases mm <;>
      simp_all [SharedState.create, OSState.unlink, OSState.shmOpenCreate,
        SharedState.cleanup, lookupName_removeName, setRegion]

theorem create_owner_of_fail {T : Type} (f : Faults) (init : T) (os : OSState T)
    (h : SharedState) (name : String)
    (hs : (SharedState.create f init os h name).2.2 = false) :
    (SharedState.create f init os h name).2.1.is_owner_ = h.is_owner_ := by
  rcases f with ⟨so, ft, mm⟩
  by_cases hv : validateName name = false <;>
    cases so <;> cases ft <;> cases mm <;>
      simp_all [SharedState.create, OSState.unlink, OSState.shmOpenCreate,
        SharedState.cleanup, lookupName_removeName, setRegion]

theorem openShm_owner_of_success {T : Type} (f : Faults) (os : OSState T)
    (h : SharedState) (name : String)
    (hs : (SharedState.openShm f os h name).2.2 = true) :
    (SharedState.openShm f os h name).2.1.is_owner_ = false := by
  rcases f with ⟨so, ft, mm⟩
  by_cases hv : validateName name = false <;>
    cases so <;> cases mm <;>
      cases hlk : lookupName os.names name <;>
        simp_all [SharedState.openShm, OSState.shmOpenExisting, SharedState.cleanup]

theorem openShm_owner_of_fail {T : Type} (f : Faults) (os : OSState T)
    (h : SharedState) (name : String)
    (hs : (SharedState.openShm f os h name).2.2 = false) :
    (SharedState.openShm f os h name).2.1.is_owner_ = h.is_owner_ := by
  rcases f with ⟨so, ft, mm⟩
  by_cases hv : validateName name = false <;>
    cases so <;> cases mm <;>
      cases hlk : lookupName os.names name <;>
        simp_all [SharedState.openShm, OSState.shmOpenExisting, SharedState.cleanup]

theorem close_owner_eq {T : Type} (os : OSState T) (h : SharedState) :
    (SharedState.close os h).2.is_owner_ = h.is_owner_ := rfl

-- Rollback behaviour of the failure paths, starting from a
-- default-constructed handle.

theorem create_fail_rollback {T : Type} (f : Faults) (init : T) (os : OSState T)
    (name : String)
    (hs : (SharedState.create f init os SharedState.mk0 name).2.2 = false) :
    (SharedState.create f init os SharedState.mk0 name).2.1.data_ptr_ = none ∧
    (SharedState.create f init os SharedState.mk0 name).2.1.shm_fd_ = none := by
  rcases f with ⟨so, ft, mm⟩
  by_cases hv : validateName name = false <;>
    cases so <;> cases ft <;> cases mm <;>
      simp_all [SharedState.create, OSState.unlink, OSState.shmOpenCreate,
        SharedState.cleanup, SharedState.mk0, lookupName_removeName, setRegion]

theorem openShm_fail_rollback {T : Type} (f : Faults) (os : OSState T)
    (name : String)
    (hs : (SharedState.openShm f os SharedState.mk0 name).2.2 = false) :
    (SharedState.openShm f os SharedState.mk0 name).2.1.data_ptr_ = none ∧
    (SharedState.openShm f os SharedState.mk0 name).2.1.shm_fd_ = none := by
  rcases f with ⟨so, ft, mm⟩
  by_cases hv : validateName name = false <;>
    cases so <;> cases mm <;>
      cases hlk : lookupName os.names name <;>
        simp_all [SharedState.openShm, OSState.shmOpenExisting, SharedState.cleanup,
          SharedState.mk0]

-- The owner flag on a handle only ever becomes true through a
-- successful create: the trace invariant.

theorem runTrace_owner_last {T : Type} (ops : List (ShmOp T)) :
    ∀ (os : OSState T) (h : SharedState) (last : Option Bool),
      (h.is_owner_ = true → last = some true) →
      (runTrace os h last ops).2.1.is_owner_ = true →
      (runTrace os h last ops).2.2 = some true := by
  induction ops with
  | nil => intro os h last hP; exact hP
  | cons op rest ih =>
    intro os h last hP
    simp only [runTrace]
    apply ih
    cases op with
    | createOp f i name =>
      intro howner
      cases hr : (SharedState.create f i os h name).2.2 with
      | true => simp [runOp, hr]
      | false =>
        have hpres := create_owner_of_fail f i os h name hr
        simp only [runOp] at howner ⊢
        rw [hr]
        simp only [Bool.false_eq_true, if_false]
        exact hP (hpres ▸ howner)
    | openOp f name =>
      intro howner
      cases hr : (SharedState.openShm f os h name).2.2 with
      | true =>
        have := openShm_owner_of_success f os h name hr
        simp only [runOp] at howner
        rw [this] at howner
        exact absurd howner (by simp)
      | false =>
        have hpres := openShm_owner_of_fail f os h name hr
        simp only [runOp] at howner ⊢
        rw [hr]
        simp only [Bool.false_eq_true, if_false]
        exact hP (hpres ▸ howner)
    | closeOp =>
      intro howner
      simp only [runOp] at howner ⊢
      rw [close_owner_eq] at howner
      simpa using hP howner

-- Closed-form evaluation of the fault-free paths.

theorem create_noFaults_eq {T : Type} (init : T) (os : OSState T) (h : SharedState)
    (name : String) (hv : validateName name = true) :
    SharedState.create noFaults init os h name =
      (⟨os.nextId + 1, (name, os.nextId) :: removeName os.names name,
        (os.nextId, some init) :: os.regions⟩,
       ⟨some os.nextId, some os.nextId, true, name⟩, true) := by
  unfold SharedState.create
  rw [hv]
  simp only [Bool.true_eq_false, if_false, noFaults, OSState.unlink, OSState.shmOpenCreate,
    lookupName_removeName]
  simp [setRegion]

theorem openShm_noFaults_eq {T : Type} (os : OSState T) (h : SharedState)
    (name : String) (id : Nat) (hv : validateName name = true)
    (hl : lookupName os.names name = some id) :
    SharedState.openShm noFaults os h name =
      (os, ⟨some id, some id, false, name⟩, true) := by
  unfold SharedState.openShm
  rw [hv]
  simp only [Bool.true_eq_false, if_false, noFaults, OSState.shmOpenExisting, hl]
  simp

-- Lemmas about C-string buffers.

theorem takeWhile_ne_zero_append (xs ys : List Nat) (hx : ∀ b ∈ xs, b ≠ 0) :
    List.takeWhile (fun b => b != 0) (xs ++ 0 :: ys) = xs := by
  induction xs with
  | nil => simp [List.takeWhile]
  | cons a rest ih =>
    have ha : (a != 0) = true := by
      simpa using hx a (by simp)
    simp only [List.cons_append, List.takeWhile_cons, ha]
    simp [ih (fun b hb => hx b (by simp [hb]))]

theorem setPortBytes_split (p : List Nat) :
    setPortBytes p = p.take 31 ++ (0 :: List.replicate (31 - p.length) 0) := by
  unfold setPortBytes strncpyBytes PORT_SIZE
  rw [List.append_assoc, ← List.replicate_succ' (31 - p.length) 0,
    List.replicate_succ]

/-- C8: `DeviceConfig::setPort` never overflows the 32-byte `port`
buffer: for every input C string the resulting buffer has exactly 32
bytes, is NUL-terminated inside them, and stores exactly the first 31
characters of the input (the whole input when it has at most 31
characters). -/
theorem setPort_never_overflows (p : List Nat) (hp : ∀ b ∈ p, b ≠ 0) :
    (setPortBytes p).length = 32 ∧
    0 ∈ setPortBytes p ∧
    cString (setPortBytes p) = p.take 31 ∧
    (p.length ≤ 31 → cString (setPortBytes p) = p) := by
  refine ⟨?_, ?_, ?_, ?_⟩
  · simp only [setPortBytes, strncpyBytes, PORT_SIZE, List.length_append,
      List.length_take, List.length_replicate, List.length_cons, List.length_nil]
    omega
  · rw [setPortBytes_split]
    simp
  · rw [setPortBytes_split]
    exact takeWhile_ne_zero_append _ _ (fun b hb => hp b (List.mem_of_mem_take hb))
  · intro hlen
    rw [setPortBytes_split, List.take_of_length_le hlen]
    exact takeWhile_ne_zero_append _ _ hp

/-- Witness for C8 at the concrete port string "/tty" (bytes 47 116 116 121). -/
theorem setPort_never_overflows_witness :
    (setPortBytes [47, 116, 116, 121]).length = 32 ∧
    0 ∈ setPortBytes [47, 116, 116, 121] ∧
    cString (setPortBytes [47, 116, 116, 121]) = List.take 31 [47, 116, 116, 121] ∧
    (List.length [47, 116, 116, 121] ≤ 31 →
      cString (setPortBytes [47, 116, 116, 121]) = [47, 116, 116, 121]) :=
  setPort_never_overflows [47, 116, 116, 121] (by decide)

/-- C9: default construction of `DeviceConfigTable` (the record the
container placement-news at create() time) leaves the handshake
unpublished with every field at its documented default: `ready = false`,
both agent acknowledgement flags false, and each of the two
`DeviceConfig` members with an empty port string, `baudrate = 115200`,
`update_rate_hz = 10`, `option = 0`, `type = 1`, `enabled = false` and
zeroed reserved bytes. -/
theorem deviceConfigTable_default_values (junkG junkI : List Nat) :
    (DeviceConfigTable.mk0 junkG junkI).ready = false ∧
    (DeviceConfigTable.mk0 junkG junkI).status.gps_ready = false ∧
    (DeviceConfigTable.mk0 junkG junkI).status.imu_ready = false ∧
    cString (DeviceConfigTable.mk0 junkG junkI).gps.port = [] ∧
    (DeviceConfigTable.mk0 junkG junkI).gps.baudrate = 115200 ∧
    (DeviceConfigTable.mk0 junkG junkI).gps.update_rate_hz = 10 ∧
    (DeviceConfigTable.mk0 junkG junkI).gps.option = 0 ∧
    (DeviceConfigTable.mk0 junkG junkI).gps.type = 1 ∧
    (DeviceConfigTable.mk0 junkG junkI).gps.enabled = false ∧
    (DeviceConfigTable.mk0 junkG junkI).gps.reserved = [0, 0, 0, 0] ∧
    cString (DeviceConfigTable.mk0 junkG junkI).imu.port = [] ∧
    (DeviceConfigTable.mk0 junkG junkI).imu.baudrate = 115200 ∧
    (DeviceConfigTable.mk0 junkG junkI).imu.update_rate_hz = 10 ∧
    (DeviceConfigTable.mk0 junkG junkI).imu.option = 0 ∧
    (DeviceConfigTable.mk0 junkG junkI).imu.type = 1 ∧
    (DeviceConfigTable.mk0 junkG junkI).imu.enabled = false ∧
    (DeviceConfigTable.mk0 junkG junkI).imu.reserved = [0, 0, 0, 0] := by
  refine ⟨rfl, rfl, rfl, ?_, rfl, rfl, rfl, rfl, rfl, rfl, ?_, rfl, rfl, rfl, rfl, rfl, rfl⟩ <;>
    simp [DeviceConfigTable.mk0, DeviceConfig.mk0, cString]

/-- C7: the liveness predicate with the sound-agent constants
(threshold 5000 ms, margin 500 ms) reads a heartbeat written 4000 ms ago
as alive and one written 6000 ms ago as not alive. -/
theorem aliveness_sound_thresholds (now : Int) :
    aliveness now (now - 4000) = true ∧ aliveness now (now - 6000) = false := by
  unfold aliveness AliveTimeThresholdSound AliveTimeMargin
  constructor
  · simp
  · simp

set_option maxRecDepth 8192 in
/-- C10: `Utils::HasGpsOption` tests exactly the target flag's bit of
the option byte, and the `NONE` option (value 0) never tests as
present. -/
theorem hasGpsOption_tests_bit (cur : Nat) (hc : cur < 256) :
    Utils.HasGpsOption cur GpsOption.NONE = false ∧
    Utils.HasGpsOption cur GpsOption.USE_RTK = cur.testBit 0 ∧
    Utils.HasGpsOption cur GpsOption.USE_DR = cur.testBit 1 ∧
    Utils.HasGpsOption cur GpsOption.IMU_SAVE = cur.testBit 2 ∧
    Utils.HasGpsOption cur GpsOption.IMU_RESTORE = cur.testBit 3 := by
  revert cur
  decide

/-- Witness for C10 at the concrete option byte 5 (USE_RTK | IMU_SAVE). -/
theorem hasGpsOption_tests_bit_witness :
    Utils.HasGpsOption 5 GpsOption.NONE = false ∧
    Utils.HasGpsOption 5 GpsOption.USE_RTK = Nat.testBit 5 0 ∧
    Utils.HasGpsOption 5 GpsOption.USE_DR = Nat.testBit 5 1 ∧
    Utils.HasGpsOption 5 GpsOption.IMU_SAVE = Nat.testBit 5 2 ∧
    Utils.HasGpsOption 5 GpsOption.IMU_RESTORE = Nat.testBit 5 3 :=
  hasGpsOption_tests_bit 5 (by decide)

-- Any successful create, whatever the fault configuration, produces the
-- same closed-form result as the fault-free run.

theorem create_success_eq {T : Type} (f : Faults) (init : T) (os : OSState T)
    (h : SharedState) (name : String)
    (hs : (SharedState.create f init os h name).2.2 = true) :
    SharedState.create f init os h name =
      (⟨os.nextId + 1, (name, os.nextId) :: removeName os.names name,
        (os.nextId, some init) :: os.regions⟩,
       ⟨some os.nextId, some os.nextId, true, name⟩, true) := by
  rcases f with ⟨so, ft, mm⟩
  by_cases hv : validateName name = false <;>
    cases so <;> cases ft <;> cases mm <;>
      simp_all [SharedState.create, OSState.unlink, OSState.shmOpenCreate,
        SharedState.cleanup, lookupName_removeName, setRegion]

/-- C1: if create(name) succeeds on one handle — in-place constructing
the record `init` in the fresh region — then open(name) on a second,
default-constructed handle succeeds, changes nothing in the OS state
(no construction, no reset), and reading the record through the second
handle yields exactly the value the creator's construction established. -/
theorem create_then_open_observes_init {T : Type} (f : Faults) (init : T)
    (os : OSState T) (h : SharedState) (name : String)
    (hs : (SharedState.create f init os h name).2.2 = true) :
    (SharedState.openShm noFaults (SharedState.create f init os h name).1
        SharedState.mk0 name).2.2 = true ∧
    SharedState.readRecord
        (SharedState.openShm noFaults (SharedState.create f init os h name).1
            SharedState.mk0 name).1
        (SharedState.openShm noFaults (SharedState.create f init os h name).1
            SharedState.mk0 name).2.1 = some (some init) ∧
    (SharedState.openShm noFaults (SharedState.create f init os h name).1
        SharedState.mk0 name).1 = (SharedState.create f init os h name).1 := by
  have hv : validateName name = true := by
    by_contra hvf
    rw [Bool.not_eq_true] at hvf
    unfold SharedState.create at hs
    rw [hvf] at hs
    simp at hs
  rw [create_success_eq f init os h name hs]
  rw [openShm_noFaults_eq _ SharedState.mk0 name os.nextId hv (by simp [lookupName])]
  refine ⟨rfl, ?_, rfl⟩
  simp [SharedState.readRecord, lookupRegion]

/-- Witness for C1: creating "/x" with value 42 in an empty namespace,
then opening it from a fresh handle, reads back 42. -/
theorem create_then_open_observes_init_witness :
    (SharedState.openShm noFaults
        (SharedState.create noFaults (42 : Nat) (OSState.mk 0 [] []) SharedState.mk0 "/x").1
        SharedState.mk0 "/x").2.2 = true ∧
    SharedState.readRecord
        (SharedState.openShm noFaults
            (SharedState.create noFaults (42 : Nat) (OSState.mk 0 [] []) SharedState.mk0 "/x").1
            SharedState.mk0 "/x").1
        (SharedState.openShm noFaults
            (SharedState.create noFaults (42 : Nat) (OSState.mk 0 [] []) SharedState.mk0 "/x").1
            SharedState.mk0 "/x").2.1 = some (some 42) ∧
    (SharedState.openShm noFaults
        (SharedState.create noFaults (42 : Nat) (OSState.mk 0 [] []) SharedState.mk0 "/x").1
        SharedState.mk0 "/x").1
      = (SharedState.create noFaults (42 : Nat) (OSState.mk 0 [] []) SharedState.mk0 "/x").1 :=
  create_then_open_observes_init noFaults 42 (OSState.mk 0 [] []) SharedState.mk0 "/x"
    (by decide)

/-- C2: for a valid name, create() with fault-free OS calls always
succeeds — also when a resource already exists under the name, because
the stale binding is removed first — and ends with the owner flag set,
the name bound to a freshly allocated region, and that region holding
the in-place constructed record; a second create() on the now-existing
name succeeds as well. -/
theorem create_clears_stale_and_succeeds {T : Type} (init init2 : T) (os : OSState T)
    (h : SharedState) (name : String) (hv : name.data.head? = some '/') :
    (SharedState.create noFaults init os h name).2.2 = true ∧
    (SharedState.create noFaults init os h name).2.1.is_owner_ = true ∧
    lookupName (SharedState.create noFaults init os h name).1.names name
      = some os.nextId ∧
    lookupRegion (SharedState.create noFaults init os h name).1.regions os.nextId
      = some (some init) ∧
    (SharedState.create noFaults init2 (SharedState.create noFaults init os h name).1
        SharedState.mk0 name).2.2 = true := by
  have hv' := validateName_of_head name hv
  rw [create_noFaults_eq init os h name hv']
  refine ⟨rfl, rfl, ?_, ?_, ?_⟩
  · simp [lookupName]
  · simp [lookupRegion]
  · rw [create_noFaults_eq init2 _ SharedState.mk0 name hv']

/-- Witness for C2: the name "/x" already bound to a stale region 0 is
cleared and re-created. -/
theorem create_clears_stale_and_succeeds_witness :
    (SharedState.create noFaults (42 : Nat) (OSState.mk 1 [("/x", 0)] [(0, some 7)])
        SharedState.mk0 "/x").2.2 = true ∧
    (SharedState.create noFaults (42 : Nat) (OSState.mk 1 [("/x", 0)] [(0, some 7)])
        SharedState.mk0 "/x").2.1.is_owner_ = true ∧
    lookupName (SharedState.create noFaults (42 : Nat)
        (OSState.mk 1 [("/x", 0)] [(0, some 7)]) SharedState.mk0 "/x").1.names "/x"
      = some 1 ∧
    lookupRegion (SharedState.create noFaults (42 : Nat)
        (OSState.mk 1 [("/x", 0)] [(0, some 7)]) SharedState.mk0 "/x").1.regions 1
      = some (some 42) ∧
    (SharedState.create noFaults (43 : Nat)
        (SharedState.create noFaults (42 : Nat) (OSState.mk 1 [("/x", 0)] [(0, some 7)])
            SharedState.mk0 "/x").1
        SharedState.mk0 "/x").2.2 = true :=
  create_clears_stale_and_succeeds 42 43 (OSState.mk 1 [("/x", 0)] [(0, some 7)])
    SharedState.mk0 "/x" (by decide)

/-- C3 counterexample: with a sizing (`ftruncate`) failure injected into
an otherwise fresh create of "/x", the call returns false, yet the OS
resource allocated by the preceding `shm_open(O_CREAT)` step is still
bound in the namespace — the claimed full rollback does not remove the
partially created resource. -/
theorem create_sizing_failure_leaks_resource :
    (SharedState.create (Faults.mk false true false) (0 : Nat)
        (OSState.mk 0 [] []) SharedState.mk0 "/x").2.2 = false ∧
    lookupName (SharedState.create (Faults.mk false true false) (0 : Nat)
        (OSState.mk 0 [] []) SharedState.mk0 "/x").1.names "/x" = some 0 := by
  decide

/-- C3 amended: every failure point of create()/open() on a
default-constructed handle returns failure and leaves the handle
unmapped and without an open descriptor; however, the OS resource
allocated by create()'s `shm_open(O_CREAT)` step is not removed when the
subsequent sizing or mapping step fails. -/
theorem create_open_fail_handle_rollback {T : Type} (f : Faults) (init : T)
    (os : OSState T) (name : String) :
    ((SharedState.create f init os SharedState.mk0 name).2.2 = false →
      (SharedState.create f init os SharedState.mk0 name).2.1.data_ptr_ = none ∧
      (SharedState.create f init os SharedState.mk0 name).2.1.shm_fd_ = none) ∧
    ((SharedState.openShm f os SharedState.mk0 name).2.2 = false →
      (SharedState.openShm f os SharedState.mk0 name).2.1.data_ptr_ = none ∧
      (SharedState.openShm f os SharedState.mk0 name).2.1.shm_fd_ = none) :=
  ⟨fun hs => create_fail_rollback f init os name hs,
   fun hs => openShm_fail_rollback f os name hs⟩

/-- Witness for the amended C3 at a concrete allocation failure of both
create("/x") and open("/x"). -/
theorem create_open_fail_handle_rollback_witness :
    ((SharedState.create (Faults.mk true false false) (0 : Nat) (OSState.mk 0 [] [])
        SharedState.mk0 "/x").2.1.data_ptr_ = none ∧
      (SharedState.create (Faults.mk true false false) (0 : Nat) (OSState.mk 0 [] [])
        SharedState.mk0 "/x").2.1.shm_fd_ = none) ∧
    ((SharedState.openShm (Faults.mk true false false) (OSState.mk 0 [] [] : OSState Nat)
        SharedState.mk0 "/x").2.1.data_ptr_ = none ∧
      (SharedState.openShm (Faults.mk true false false) (OSState.mk 0 [] [] : OSState Nat)
        SharedState.mk0 "/x").2.1.shm_fd_ = none) :=
  ⟨(create_open_fail_handle_rollback (Faults.mk true false false) (0 : Nat)
      (OSState.mk 0 [] []) "/x").1 (by decide),
   (create_open_fail_handle_rollback (Faults.mk true false false) (0 : Nat)
      (OSState.mk 0 [] []) "/x").2 (by decide)⟩

/-- C4: a name that is empty or does not start with '/' makes both
create() and open() return false while leaving the OS namespace and the
handle state completely unchanged. -/
theorem invalid_name_rejected {T : Type} (f : Faults) (init : T) (os : OSState T)
    (h : SharedState) (name : String) (hinv : name.data.head? ≠ some '/') :
    SharedState.create f init os h name = (os, h, false) ∧
    SharedState.openShm f os h name = (os, h, false) := by
  have hv := validateName_false_of_head name hinv
  refine ⟨?_, ?_⟩ <;> simp [SharedState.create, SharedState.openShm, hv]

/-- Witness for C4 at the invalid (slash-less) name "x". -/
theorem invalid_name_rejected_witness :
    SharedState.create noFaults (0 : Nat) (OSState.mk 0 [] []) SharedState.mk0 "x"
      = (OSState.mk 0 [] [], SharedState.mk0, false) ∧
    SharedState.openShm noFaults (OSState.mk 0 [] [] : OSState Nat) SharedState.mk0 "x"
      = (OSState.mk 0 [] [], SharedState.mk0, false) :=
  invalid_name_rejected noFaults (0 : Nat) (OSState.mk 0 [] []) SharedState.mk0 "x"
    (by decide)

/-- C5: close() (the destructor delegates to the same cleanup) always
unmaps the region and closes the descriptor; it removes the name from
the OS namespace only when the handle is the owner, so closing a
non-owner handle leaves the OS untouched and a later open() of the name
still succeeds; and a second close() of the already-cleaned handle
leaves the exact same state. -/
theorem close_unmaps_owner_gated_idempotent {T : Type} (os : OSState T)
    (h : SharedState) :
    (SharedState.close os h).2.data_ptr_ = none ∧
    (SharedState.close os h).2.shm_fd_ = none ∧
    (h.is_owner_ = false → (SharedState.close os h).1 = os) ∧
    (h.is_owner_ = true → h.shm_name_ ≠ "" →
      (SharedState.close os h).1.names = removeName os.names h.shm_name_) ∧
    SharedState.close (SharedState.close os h).1 (SharedState.close os h).2
      = SharedState.close os h ∧
    (h.is_owner_ = false → ∀ (name : String) (id : Nat), validateName name = true →
      lookupName os.names name = some id →
      (SharedState.openShm noFaults (SharedState.close os h).1
          SharedState.mk0 name).2.2 = true) := by
  refine ⟨rfl, rfl, ?_, ?_, ?_, ?_⟩
  · intro how
    simp [SharedState.close, SharedState.cleanup, how]
  · intro how hnm
    simp [SharedState.close, SharedState.cleanup, how, OSState.unlink, hnm]
  · by_cases how : h.is_owner_ <;> by_cases hnm : h.shm_name_ = "" <;>
      simp [SharedState.close, SharedState.cleanup, OSState.unlink, how, hnm,
        removeName_removeName]
  · intro how name id hvn hlk
    have hos : (SharedState.close os h).1 = os := by
      simp [SharedState.close, SharedState.cleanup, how]
    rw [hos, openShm_noFaults_eq os SharedState.mk0 name id hvn hlk]

/-- Witness for C5: a non-owner handle mapped to "/x" closes without
removing the binding and a later open of "/x" succeeds. -/
theorem close_unmaps_owner_gated_idempotent_witness :
    (SharedState.close (OSState.mk 1 [("/x", 0)] [(0, some (7 : Nat))])
        (SharedState.mk (some 0) (some 0) false "/x")).2.data_ptr_ = none ∧
    (SharedState.close (OSState.mk 1 [("/x", 0)] [(0, some (7 : Nat))])
        (SharedState.mk (some 0) (some 0) false "/x")).1
      = OSState.mk 1 [("/x", 0)] [(0, some (7 : Nat))] ∧
    (SharedState.openShm noFaults
        (SharedState.close (OSState.mk 1 [("/x", 0)] [(0, some (7 : Nat))])
            (SharedState.mk (some 0) (some 0) false "/x")).1
        SharedState.mk0 "/x").2.2 = true :=
  ⟨(close_unmaps_owner_gated_idempotent (OSState.mk 1 [("/x", 0)] [(0, some (7 : Nat))])
      (SharedState.mk (some 0) (some 0) false "/x")).1,
   (close_unmaps_owner_gated_idempotent (OSState.mk 1 [("/x", 0)] [(0, some (7 : Nat))])
      (SharedState.mk (some 0) (some 0) false "/x")).2.2.1 (by decide),
   (close_unmaps_owner_gated_idempotent (OSState.mk 1 [("/x", 0)] [(0, some (7 : Nat))])
      (SharedState.mk (some 0) (some 0) false "/x")).2.2.2.2.2 (by decide) "/x" 0
      (by decide) (by decide)⟩

/-- C6: the owner flag is only ever set by create(): every successful
create() leaves it true, every successful open() leaves it false,
close() never changes it, and along every operation sequence run on a
default-constructed handle, reaching a state with the owner flag set
means the last successful attach operation was a create(). -/
theorem owner_flag_only_from_create {T : Type} :
    (∀ (f : Faults) (init : T) (os : OSState T) (h : SharedState) (name : String),
      (SharedState.create f init os h name).2.2 = true →
      (SharedState.create f init os h name).2.1.is_owner_ = true) ∧
    (∀ (f : Faults) (os : OSState T) (h : SharedState) (name : String),
      (SharedState.openShm f os h name).2.2 = true →
      (SharedState.openShm f os h name).2.1.is_owner_ = false) ∧
    (∀ (os : OSState T) (h : SharedState),
      (SharedState.close os h).2.is_owner_ = h.is_owner_) ∧
    (∀ (ops : List (ShmOp T)) (os : OSState T),
      (runTrace os SharedState.mk0 none ops).2.1.is_owner_ = true →
      (runTrace os SharedState.mk0 none ops).2.2 = some true) :=
  ⟨create_owner_of_success, openShm_owner_of_success, close_owner_eq,
   fun ops os =>
     runTrace_owner_last ops os SharedState.mk0 none (fun hcon => absurd hcon (by decide))⟩

/-- Witness for C6: a single successful create of "/x" flags the handle
as owner and records create as the last successful attach. -/
theorem owner_flag_only_from_create_witness :
    (SharedState.create noFaults (0 : Nat) (OSState.mk 0 [] []) SharedState.mk0
        "/x").2.1.is_owner_ = true ∧
    (runTrace (OSState.mk 0 [] [] : OSState Nat) SharedState.mk0 none
        [ShmOp.createOp noFaults 0 "/x"]).2.2 = some true :=
  ⟨owner_flag_only_from_create.1 noFaults (0 : Nat) (OSState.mk 0 [] []) SharedState.mk0
      "/x" (by decide),
   owner_flag_only_from_create.2.2.2 [ShmOp.createOp noFaults 0 "/x"]
      (OSState.mk 0 [] []) (by decide)⟩
